import Mathlib

/-!
Verification of the Transfer Test Engine of `src/test-apps/TestInetLayer.cpp`
(openweave-core). The C++ source is shallowly embedded: the global state of the
tool becomes explicit state records, every embedded function is named after the
source function it translates, and helpers that live in files outside the
repository slice (`TestInetLayerCommon`, `ToolCommon`, `SystemLayer`) are
modelled from the specification and marked as such in their doc comments.
All counters in the source are `uint32_t`; they are embedded as `Nat` together
with explicit `% 2 ^ 32` / `% 256` reductions at the points where the source
performs a narrowing or wrapping operation.
-/

namespace TestInetLayer

/-- `uint32_t` modulus. -/
def U32 : Nat := 2 ^ 32

/-- Embeds `struct TransferCount { uint32_t mActual; uint32_t mExpected; }`
(TestInetLayerCommon.hpp, used throughout TestInetLayer.cpp). -/
structure TransferCount where
  mActual : Nat
  mExpected : Nat
deriving Repr, DecidableEq

/-- Embeds `struct TransferStats { TransferCount mTransmit; TransferCount mReceive; }`. -/
structure TransferStats where
  mTransmit : TransferCount
  mReceive : TransferCount
deriving Repr, DecidableEq

/-- Embeds `struct TestStatus { bool mFailed; bool mSucceeded; }`: the two
independent status flags of the tool. -/
structure TestStatus where
  mSucceeded : Bool
  mFailed : Bool
deriving Repr, DecidableEq

/-- Embeds `struct TestState { TransferStats mStats; TestStatus mStatus; }`
(TestInetLayer.cpp lines 66-70). -/
structure TestState where
  mStats : TransferStats
  mStatus : TestStatus
deriving Repr, DecidableEq

/-- The tri-state view of the two status flags. -/
inductive Status where
  | Running
  | Succeeded
  | Failed
deriving Repr, DecidableEq

/-- Modelled from the spec: the tri-state reading of the two flags —
"`Failed` dominates `Succeeded` (once failed, stays failed); `Running` is
`!succeeded && !failed`" (spec section 3, TestStatus). -/
def statusOf (s : TestStatus) : Status :=
  if s.mFailed then Status.Failed
  else if s.mSucceeded then Status.Succeeded
  else Status.Running

namespace Common

/-- Modelled from the spec: `Common::SetStatusFailed` (TestInetLayerCommon,
not under src/) unconditionally records the failed flag — "An explicit
`forceFail()` operation ... unconditionally sets `Failed`" (spec section 4.1). -/
def SetStatusFailed (s : TestStatus) : TestStatus :=
  { s with mFailed := true }

/-- Modelled from the spec: `Common::IsTesting` (TestInetLayerCommon, not under
src/) — the main loop runs while the status is neither succeeded nor failed
("the loop terminates when the Transfer State Tracker reaches a terminal
state", spec section 2). -/
def IsTesting (s : TestStatus) : Bool :=
  !s.mSucceeded && !s.mFailed

/-- Modelled from the spec: `Common::WasSuccessful` (TestInetLayerCommon, not
under src/) — overall success means succeeded and not failed, since "`Failed`
dominates `Succeeded`" (spec section 3). -/
def WasSuccessful (s : TestStatus) : Bool :=
  s.mSucceeded && !s.mFailed

end Common

/-- Embeds `CheckSucceededOrFailed` (TestInetLayer.cpp lines 185-214). The two
`bool &` in/out parameters are passed in and the updated state together with
their final values is returned: `(state, succeeded, failed)`. -/
def CheckSucceededOrFailed (aTestState : TestState) (aOutSucceeded aOutFailed : Bool) :
    TestState × Bool × Bool :=
  let lStats := aTestState.mStats
  let lOvershot : Bool :=
    (decide (0 < lStats.mTransmit.mExpected) &&
       decide (lStats.mTransmit.mExpected < lStats.mTransmit.mActual)) ||
    (decide (0 < lStats.mReceive.mExpected) &&
       decide (lStats.mReceive.mExpected < lStats.mReceive.mActual))
  let lUndershot : Bool :=
    (decide (0 < lStats.mTransmit.mExpected) &&
       decide (lStats.mTransmit.mActual < lStats.mTransmit.mExpected)) ||
    (decide (0 < lStats.mReceive.mExpected) &&
       decide (lStats.mReceive.mActual < lStats.mReceive.mExpected))
  let lFailed : Bool := if lOvershot then true else aOutFailed
  let lSucceeded : Bool := if !lOvershot && lUndershot then false else aOutSucceeded
  let lStatus :=
    if lSucceeded || lFailed then
      let s1 := if lSucceeded then
          { aTestState.mStatus with mSucceeded := true }
        else aTestState.mStatus
      if lFailed then Common.SetStatusFailed s1 else s1
    else aTestState.mStatus
  ({ aTestState with mStatus := lStatus }, lSucceeded, lFailed)

/-- One evaluation as performed by each iteration of `main`'s loop
(TestInetLayer.cpp lines 274-297): the caller initialises `lSucceeded = true`
and `lFailed = false` before every call. -/
def evaluateOnce (s : TestState) : TestState :=
  (CheckSucceededOrFailed s true false).1

/-- The verdict an evaluation reports through its two out-parameters, read as
a tri-state (failed wins, matching how `CheckSucceededOrFailed` merges them
into the stored status). -/
def verdictOf (r : TestState × Bool × Bool) : Status :=
  if r.2.2 then Status.Failed
  else if r.2.1 then Status.Succeeded
  else Status.Running

/-- The operations the Transfer State Tracker is subjected to during a run:
a pacing-tick transmit update (`DriveSend`, lines 905-915), a verified receive
update (`Common::HandleDataReceived`), a forced failure (`SetStatusFailed`
call sites), and an evaluation (`CheckSucceededOrFailed` from the main loop). -/
inductive TrackerOp where
  | transmitTick (sendSize : Nat)
  | received (n : Nat)
  | forceFail
  | evaluate
deriving Repr, DecidableEq

/-- Embeds the transmit-counter mutation of `DriveSend` (TestInetLayer.cpp
lines 905-915): only when `mActual < mExpected`, send
`min(mExpected - mActual, sendSize)` bytes and add that to `mActual`
(the `uint32_t` addition is reduced mod `2 ^ 32`). -/
def transmitStep (st : TransferStats) (sendSize : Nat) : TransferStats :=
  if st.mTransmit.mActual < st.mTransmit.mExpected then
    let lRemaining := st.mTransmit.mExpected - st.mTransmit.mActual
    let lSendSize := min lRemaining sendSize
    { st with mTransmit :=
        { st.mTransmit with mActual := (st.mTransmit.mActual + lSendSize) % U32 } }
  else st

/-- Modelled from the spec: the receive-counter mutation of
`Common::HandleDataReceived` (TestInetLayerCommon, not under src/) — "on
success, advance receive counter by buffer length" (spec section 4.6). -/
def receiveStep (st : TransferStats) (n : Nat) : TransferStats :=
  { st with mReceive := { st.mReceive with mActual := st.mReceive.mActual + n } }

/-- One tracker operation applied to the test state. -/
def trackerStep (s : TestState) : TrackerOp → TestState
  | TrackerOp.transmitTick sz => { s with mStats := transmitStep s.mStats sz }
  | TrackerOp.received n => { s with mStats := receiveStep s.mStats n }
  | TrackerOp.forceFail => { s with mStatus := Common.SetStatusFailed s.mStatus }
  | TrackerOp.evaluate => evaluateOnce s

/-- A whole sequence of tracker operations. -/
def trackerRun (s : TestState) (ops : List TrackerOp) : TestState :=
  ops.foldl trackerStep s

/-- Well-formedness carried by the `uint32_t` representation: the expected
counts fit in 32 bits (`ParseInt` rejects larger values, TestInetLayer.cpp
lines 330-346, and the defaults are 1523). -/
def statsWF (st : TransferStats) : Prop :=
  st.mTransmit.mExpected < U32

/-! ## Pattern buffers and the integrity checker -/

/-- Modelled from the spec: `Common::MakeDataBuffer` (TestInetLayerCommon, not
under src/) builds a buffer of `aSize` pattern bytes, byte `i` being
`(aFirstValue + i) mod 256` ("Expected content is the sequence
`(firstExpectedValue + i) mod 256`", spec section 4.2). -/
def MakeDataBuffer (aSize : Nat) (aFirstValue : Nat) : List Nat :=
  (List.range aSize).map (fun i => (aFirstValue + i) % 256)

namespace Common

/-- Modelled from the spec: the integrity check inside
`Common::HandleDataReceived` (TestInetLayerCommon, not under src/): the buffer
must equal the pattern of its own length starting at `aFirstValue`, with the
check failing on the first mismatch (spec section 4.2). -/
def verify (aBuffer : List Nat) (aFirstValue : Nat) : Bool :=
  aBuffer == TestInetLayer.MakeDataBuffer aBuffer.length aFirstValue

/-- Modelled from the spec: `Common::HandleDataReceived` (TestInetLayerCommon,
not under src/) — when checking is requested, verify the buffer against the
pattern starting at `aFirstValue`; on success advance the receive counter by
the buffer length and report `true`, on mismatch leave the stats untouched and
report `false` (spec sections 4.2 and 4.6). -/
def HandleDataReceived (aBuffer : List Nat) (aStats : TransferStats)
    (aCheckBuffer : Bool) (aFirstValue : Nat) : Bool × TransferStats :=
  if aCheckBuffer && !(verify aBuffer aFirstValue) then
    (false, aStats)
  else
    (true, receiveStep aStats aBuffer.length)

end Common

/-! ## Global program state and transport layer embedding -/

/-- The `enum OptFlags` bitmask (TestInetLayer.cpp lines 58-64 together with
the shared flags of TestInetLayerCommon), embedded as one boolean per bit. -/
structure OptFlags where
  useIPv4 : Bool
  useIPv6 : Bool
  useRawIP : Bool
  useTCPIP : Bool
  useUDPIP : Bool
  listen : Bool
  expectedRxSize : Bool
  expectedTxSize : Bool
deriving Repr, DecidableEq

namespace Common

/-- Modelled from the spec: `Common::IsReceiver` (TestInetLayerCommon, not
under src/) — the `--listen` flag selects the Receiver role (spec section 6). -/
def IsReceiver (flags : OptFlags) : Bool :=
  flags.listen

/-- Modelled from the spec: `Common::IsSender` (TestInetLayerCommon, not under
src/) — the Sender role is the default, the complement of `--listen`. -/
def IsSender (flags : OptFlags) : Bool :=
  !flags.listen

end Common

/-- The `TCPEndPoint::State` values consulted by TestInetLayer.cpp. -/
inductive TCPState where
  | kState_Connecting
  | kState_Connected
  | kState_ReceiveShutdown
  | kState_Closed
deriving Repr, DecidableEq

/-- The observable face of a `TCPEndPoint` as used by this tool. -/
structure TCPEndPointM where
  State : TCPState
  pendingSendLength : Nat
deriving Repr, DecidableEq

/-- Calls the engine issues into the network stack and the timer service;
recorded as a trace so that frame conditions and send contents can be stated. -/
inductive Action where
  | cancelTimer
  | startTimer
  | sendRaw (size : Nat)
  | sendDatagram (payload : List Nat)
  | tcpSend (payload : List Nat)
  | newTCPEndPoint
  | tcpConnect
  | freeRawEndPoint
  | closeTCPEndPoint
  | freeTCPEndPoint
  | shutdownListenEndPoint
  | freeListenEndPoint
  | freeUDPEndPoint
deriving Repr, DecidableEq

/-- The file-scope globals of TestInetLayer.cpp (lines 85-104) together with
the shared globals of TestInetLayerCommon that the engine reads and writes.
Endpoint handles are embedded by what the pointer lets the code observe:
`Bool` (non-null or null) for the raw, listen and UDP endpoints, and
`Option TCPEndPointM` for the TCP data endpoint whose `State` and
`PendingSendLength()` are consulted. `pendingSendTimers` counts the pending
one-shot timers armed for `Common::HandleSendTimerComplete`. -/
structure Globals where
  sTestState : TestState
  gOptFlags : OptFlags
  gSendIntervalExpired : Bool
  gSendSize : Nat
  sRawIPEndPoint : Bool
  sTCPIPEndPoint : Option TCPEndPointM
  sTCPIPListenEndPoint : Bool
  sUDPIPEndPoint : Bool
  pendingSendTimers : Nat
deriving Repr, DecidableEq

/-- Modelled from the spec: `SystemLayer.CancelTimer` for the send-timer
callback — removes every pending timer for that callback. -/
def CancelTimer (_pending : Nat) : Nat := 0

/-- Modelled from the spec: `SystemLayer.StartTimer` — "unconditionally cancel
any pending timer and arm a new one-shot timer for the configured interval"
(spec section 4.5): the arm is preceded by a cancel of the same callback. -/
def StartTimer (pending : Nat) : Nat :=
  CancelTimer pending + 1

/-- Embeds `IsTransportReadyForSend` (TestInetLayer.cpp lines 762-795). -/
def IsTransportReadyForSend (g : Globals) : Bool :=
  if g.gOptFlags.useRawIP then
    g.sRawIPEndPoint
  else if g.gOptFlags.useUDPIP then
    g.sUDPIPEndPoint
  else if g.gOptFlags.useTCPIP then
    match g.sTCPIPEndPoint with
    | some ep =>
        ep.pendingSendLength == 0 &&
          (ep.State == TCPState.kState_Connected ||
           ep.State == TCPState.kState_ReceiveShutdown)
    | none => false
  else
    false

/-- Embeds `PrepareTransportForSend` (TestInetLayer.cpp lines 797-819): for
the TCP transport, only when the global data-endpoint handle is null does it
allocate a fresh endpoint and initiate `Connect`. -/
def PrepareTransportForSend (g : Globals) : Globals × List Action :=
  if g.gOptFlags.useTCPIP then
    match g.sTCPIPEndPoint with
    | none =>
        let lEndPoint := TCPEndPointM.mk TCPState.kState_Connecting 0
        ({ g with sTCPIPEndPoint := some lEndPoint },
         [Action.newTCPEndPoint, Action.tcpConnect])
    | some _ => (g, [])
  else
    (g, [])

/-- Embeds `DriveSendForDestination` (TestInetLayer.cpp lines 821-883): Raw
sends one ICMP-framed unit; UDP sends one datagram patterned from
`lFirstValue = 0` (line 853); TCP sends a stream continuation patterned from
`lFirstValue = (uint8_t) mTransmit.mActual` (line 866), the `uint8_t` cast
being a `% 256` reduction. Stack send errors are outside the model. -/
def DriveSendForDestination (g : Globals) (aSize : Nat) : List Action :=
  if g.gOptFlags.useRawIP then
    [Action.sendRaw aSize]
  else if g.gOptFlags.useUDPIP then
    [Action.sendDatagram (MakeDataBuffer aSize 0)]
  else if g.gOptFlags.useTCPIP then
    [Action.tcpSend (MakeDataBuffer aSize (g.sTestState.mStats.mTransmit.mActual % 256))]
  else
    []

/-- Embeds `DriveSend` (TestInetLayer.cpp lines 885-931): a no-op for a
receiver or while the interval has not expired; if the transport is not ready
it only prepares it (connects, for TCP); otherwise it clears the
interval-expired flag, arms the one-shot pacing timer, and — while the
transmit counter has not reached its expected count — sends
`min(remaining, gSendSize)` pattern bytes and advances the counter. -/
def DriveSend (g : Globals) : Globals × List Action :=
  if !(Common.IsSender g.gOptFlags) then
    (g, [])
  else if !g.gSendIntervalExpired then
    (g, [])
  else if !(IsTransportReadyForSend g) then
    PrepareTransportForSend g
  else
    let g1 := { g with
      gSendIntervalExpired := false,
      pendingSendTimers := StartTimer g.pendingSendTimers }
    if g1.sTestState.mStats.mTransmit.mActual < g1.sTestState.mStats.mTransmit.mExpected then
      let lRemaining := g1.sTestState.mStats.mTransmit.mExpected -
        g1.sTestState.mStats.mTransmit.mActual
      let lSendSize := min lRemaining g1.gSendSize
      let lActs := DriveSendForDestination g1 lSendSize
      let g2 := { g1 with sTestState :=
        { g1.sTestState with mStats := transmitStep g1.sTestState.mStats g1.gSendSize } }
      (g2, Action.startTimer :: lActs)
    else
      (g1, [Action.startTimer])

/-- Modelled from the spec: `Common::HandleSendTimerComplete`
(TestInetLayerCommon, not under src/) — a pacing-timer expiry consumes the
pending one-shot timer, marks the interval as expired and invokes the pacing
controller ("`drive()`, invoked ... on every interval-timer expiry", spec
section 4.5). -/
def HandleSendTimerComplete (g : Globals) : Globals × List Action :=
  DriveSend { g with
    gSendIntervalExpired := true,
    pendingSendTimers := g.pendingSendTimers - 1 }

/-- Embeds `HandleTCPConnectionComplete` (TestInetLayer.cpp lines 530-570).
On success the handler probes the endpoint (keep-alive toggling and receive
enable/disable, no effect on the modelled state) and invokes `DriveSend` once.
On failure it frees the endpoint object and nulls only its local parameter
`aEndPoint` — the global `sTCPIPEndPoint` is left untouched — clears the
interval-expired flag, cancels and re-arms the pacing timer, and sets the
status failed. -/
def HandleTCPConnectionComplete (g : Globals) (aError : Option Nat) : Globals × List Action :=
  match aError with
  | none => DriveSend g
  | some _ =>
      let g1 := { g with
        gSendIntervalExpired := false,
        pendingSendTimers := StartTimer (CancelTimer g.pendingSendTimers),
        sTestState := { g.sTestState with
          mStatus := Common.SetStatusFailed g.sTestState.mStatus } }
      (g1, [Action.freeTCPEndPoint, Action.cancelTimer, Action.startTimer])

/-- Embeds `HandleTCPDataReceived` (TestInetLayer.cpp lines 598-645): a null
endpoint or buffer is a bad-argument error that sets the status failed; a
delivery on a not-yet-connected endpoint is put back with no status change;
otherwise the buffer is verified against the pattern starting at
`lFirstValue = (uint8_t) mReceive.mActual` (line 600, i.e. `mActual % 256`)
and, on success, the receive counter advances by the buffer length, while a
mismatch sets the status failed. -/
def HandleTCPDataReceived (s : TestState) (aEndPoint : Option TCPEndPointM)
    (aBuffer : Option (List Nat)) : TestState :=
  match aEndPoint, aBuffer with
  | none, _ => { s with mStatus := Common.SetStatusFailed s.mStatus }
  | some _, none => { s with mStatus := Common.SetStatusFailed s.mStatus }
  | some ep, some lBuffer =>
      if ep.State != TCPState.kState_Connected then
        s
      else
        let lFirstValue := s.mStats.mReceive.mActual % 256
        let lResult := Common.HandleDataReceived lBuffer s.mStats true lFirstValue
        if lResult.1 then
          { s with mStats := lResult.2 }
        else
          { s with mStatus := Common.SetStatusFailed s.mStatus }

/-- Embeds `CleanupTest` (TestInetLayer.cpp lines 1043-1075): cancel the
pacing timer, then release whichever endpoints are non-null, in source order —
raw (`Free`), TCP data endpoint (`Close` then `Free`), TCP listen endpoint
(`Shutdown` then `Free`), UDP (`Free`). The source never nulls the global
handles, so the returned state keeps every handle exactly as it was. -/
def CleanupTest (g : Globals) : Globals × List Action :=
  let g1 := { g with
    gSendIntervalExpired := false,
    pendingSendTimers := CancelTimer g.pendingSendTimers }
  (g1,
    Action.cancelTimer ::
      ((if g.sRawIPEndPoint then [Action.freeRawEndPoint] else []) ++
       (if g.sTCPIPEndPoint.isSome then
          [Action.closeTCPEndPoint, Action.freeTCPEndPoint] else []) ++
       (if g.sTCPIPListenEndPoint then
          [Action.shutdownListenEndPoint, Action.freeListenEndPoint] else []) ++
       (if g.sUDPIPEndPoint then [Action.freeUDPEndPoint] else [])))

/-! ## Option handling and the main entry point -/

/-- The command-line options dispatched by `HandleOption`
(TestInetLayer.cpp lines 311-437), with parsed argument values attached. -/
inductive ToolOpt where
  | optInterval (n : Nat)
  | optListen
  | optExpectedRxSize (n : Nat)
  | optExpectedTxSize (n : Nat)
  | optIPv4Only
  | optIPv6Only
  | optInterface
  | optRawIP
  | optTCPIP
  | optUDPIP
  | optSendSize (n : Nat)
deriving Repr, DecidableEq

/-- The mutable state touched by `HandleOption`: the option flags, the two
expected transfer sizes inside `sTestState`, the send size and the interval. -/
structure ParseState where
  gOptFlags : OptFlags
  mReceiveExpected : Nat
  mTransmitExpected : Nat
  gSendSize : Nat
  gSendIntervalMs : Nat
deriving Repr, DecidableEq

/-- Embeds `HandleOption` (TestInetLayer.cpp lines 311-437). Returns the
handler's `retval` together with the updated state. `ParseInt` success is a
range check (`uint32_t`, and `uint16_t` for the send size); note that the
conflicting-flag cases still OR the new flag in even after reporting the
error, exactly as the source does. -/
def HandleOption (ps : ParseState) : ToolOpt → Bool × ParseState
  | ToolOpt.optInterval n =>
      if n < U32 then (true, { ps with gSendIntervalMs := n }) else (false, ps)
  | ToolOpt.optListen =>
      (true, { ps with gOptFlags := { ps.gOptFlags with listen := true } })
  | ToolOpt.optExpectedRxSize n =>
      let lOk := n < U32
      let ps1 := if lOk then { ps with mReceiveExpected := n } else ps
      (lOk, { ps1 with gOptFlags := { ps1.gOptFlags with expectedRxSize := true } })
  | ToolOpt.optExpectedTxSize n =>
      let lOk := n < U32
      let ps1 := if lOk then { ps with mTransmitExpected := n } else ps
      (lOk, { ps1 with gOptFlags := { ps1.gOptFlags with expectedTxSize := true } })
  | ToolOpt.optIPv4Only =>
      (!ps.gOptFlags.useIPv6,
       { ps with gOptFlags := { ps.gOptFlags with useIPv4 := true } })
  | ToolOpt.optIPv6Only =>
      (!ps.gOptFlags.useIPv4,
       { ps with gOptFlags := { ps.gOptFlags with useIPv6 := true } })
  | ToolOpt.optInterface =>
      (true, ps)
  | ToolOpt.optRawIP =>
      (!ps.gOptFlags.useUDPIP && !ps.gOptFlags.useTCPIP,
       { ps with gOptFlags := { ps.gOptFlags with useRawIP := true } })
  | ToolOpt.optTCPIP =>
      (!ps.gOptFlags.useRawIP && !ps.gOptFlags.useUDPIP,
       { ps with gOptFlags := { ps.gOptFlags with useTCPIP := true } })
  | ToolOpt.optUDPIP =>
      (!ps.gOptFlags.useRawIP && !ps.gOptFlags.useTCPIP,
       { ps with gOptFlags := { ps.gOptFlags with useUDPIP := true } })
  | ToolOpt.optSendSize n =>
      if n < 2 ^ 16 then (true, { ps with gSendSize := n }) else (false, ps)

/-- Modelled from the spec: `ParseArgs` (ToolCommon, not under src/) feeds
every command-line option through its option set's handler and reports failure
when any handler rejects ("Configuration errors ... detected before the
session starts", spec section 7). -/
def ParseArgs (ps : ParseState) (opts : List ToolOpt) : Bool × ParseState :=
  opts.foldl (fun acc opt =>
    let r := HandleOption acc.2 opt
    (acc.1 && r.1, r.2)) (true, ps)

/-- The parse state at program start: all flags clear, the statically
initialised `sTestState` counters zero, `gSendSize` 59 and the interval
1000 ms (TestInetLayer.cpp lines 97-101 and the documented defaults). -/
def initialParseState : ParseState :=
  { gOptFlags :=
      { useIPv4 := false, useIPv6 := false, useRawIP := false,
        useTCPIP := false, useUDPIP := false, listen := false,
        expectedRxSize := false, expectedTxSize := false }
    mReceiveExpected := 0
    mTransmitExpected := 0
    gSendSize := 59
    gSendIntervalMs := 1000 }

/-- `EXIT_SUCCESS`. -/
def EXIT_SUCCESS : Nat := 0

/-- `EXIT_FAILURE`. -/
def EXIT_FAILURE : Nat := 1

/-- Embeds the control flow of `main` (TestInetLayer.cpp lines 228-309) up to
the argument-handling decision: when `ParseArgs` fails, `main` jumps straight
to `exit` and returns `EXIT_FAILURE`, never reaching `StartTest` (the only
place endpoints are created). The session that runs after a successful parse
is abstracted as `sessionExitCode`. Returns the exit code and whether
`StartTest` was reached. -/
def mainRun (sessionExitCode : Nat) (args : List ToolOpt) : Nat × Bool :=
  let r := ParseArgs initialParseState args
  if r.1 then (sessionExitCode, true) else (EXIT_FAILURE, false)

/-- Embeds `main`'s status-polling loop (TestInetLayer.cpp lines 274-297) in
a run with no inbound or outbound network events: each iteration checks
`Common::IsTesting` and, while testing, performs one `CheckSucceededOrFailed`
evaluation with `lSucceeded = true`, `lFailed = false`. Fuel bounds the number
of iterations. -/
def mainLoop : Nat → TestState → TestState
  | 0, s => s
  | Nat.succ fuel, s =>
      if Common.IsTesting s.mStatus then mainLoop fuel (evaluateOnce s) else s

/-- Embeds `main`'s final exit decision (TestInetLayer.cpp lines 305-308):
`Common::WasSuccessful` of the final status selects the process exit code. -/
def mainExitCode (s : TestState) : Nat :=
  if Common.WasSuccessful s.mStatus then EXIT_SUCCESS else EXIT_FAILURE

/-! ## Concrete scenarios and trace helpers -/

/-- The datagram payloads inside an action trace. -/
def datagramPayloads (acts : List Action) : List (List Nat) :=
  acts.filterMap (fun a =>
    match a with
    | Action.sendDatagram p => some p
    | _ => none)

/-- The stream-send payloads inside an action trace. -/
def tcpSendPayloads (acts : List Action) : List (List Nat) :=
  acts.filterMap (fun a =>
    match a with
    | Action.tcpSend p => some p
    | _ => none)

/-- Runs `n` pacing-timer expiries (each one firing
`Common::HandleSendTimerComplete`), concatenating the emitted actions. -/
def runTimerTicks : Nat → Globals → Globals × List Action
  | 0, g => (g, [])
  | Nat.succ n, g =>
      let r := HandleSendTimerComplete g
      let rest := runTimerTicks n r.1
      (rest.1, r.2 ++ rest.2)

/-- The option flags of a plain `--udp` IPv6 sender. -/
def udpSenderFlags : OptFlags :=
  { useIPv4 := false, useIPv6 := true, useRawIP := false,
    useTCPIP := false, useUDPIP := true, listen := false,
    expectedRxSize := true, expectedTxSize := true }

/-- The option flags of a plain `--tcp` IPv6 sender. -/
def tcpSenderFlags : OptFlags :=
  { useIPv4 := false, useIPv6 := true, useRawIP := false,
    useTCPIP := true, useUDPIP := false, listen := false,
    expectedRxSize := true, expectedTxSize := true }

/-- The C3 scenario at the moment `StartTest` invokes the first `DriveSend`:
a datagram sender with `--expected-tx-size 10 --send-size 4`, the UDP
endpoint allocated, no timer pending, and the interval-expired flag in its
initial `true` state (`gSendIntervalExpired` is initialised true in
TestInetLayerCommon so the very first `DriveSend` sends; modelled from the
spec, the flag source being outside src/). -/
def udpScenarioInit : Globals :=
  { sTestState := TestState.mk
      (TransferStats.mk (TransferCount.mk 0 10) (TransferCount.mk 0 0))
      (TestStatus.mk false false)
    gOptFlags := udpSenderFlags
    gSendIntervalExpired := true
    gSendSize := 4
    sRawIPEndPoint := false
    sTCPIPEndPoint := none
    sTCPIPListenEndPoint := false
    sUDPIPEndPoint := true
    pendingSendTimers := 0 }

/-- The C3 run: the initial `DriveSend` from `StartTest` followed by `n`
pacing-timer expiries. -/
def udpRun (n : Nat) : Globals × List Action :=
  let first := DriveSend udpScenarioInit
  let rest := runTimerTicks n first.1
  (rest.1, first.2 ++ rest.2)

/-- A connected TCP data endpoint with an empty send backlog. -/
def tcpConnectedEndPoint : TCPEndPointM :=
  TCPEndPointM.mk TCPState.kState_Connected 0

/-- The C4 stream-receiver state: nothing received yet out of an expected
8-byte stream. -/
def streamRxState : TestState :=
  TestState.mk
    (TransferStats.mk (TransferCount.mk 0 0) (TransferCount.mk 0 8))
    (TestStatus.mk false false)

/-- A stream sender whose connect attempt is in flight: `--tcp`, the TCP data
endpoint allocated by `PrepareTransportForSend` and still connecting. -/
def tcpSenderConnecting : Globals :=
  { sTestState := TestState.mk
      (TransferStats.mk (TransferCount.mk 0 10) (TransferCount.mk 0 0))
      (TestStatus.mk false false)
    gOptFlags := tcpSenderFlags
    gSendIntervalExpired := true
    gSendSize := 4
    sRawIPEndPoint := false
    sTCPIPEndPoint := some (TCPEndPointM.mk TCPState.kState_Connecting 0)
    sTCPIPListenEndPoint := false
    sUDPIPEndPoint := false
    pendingSendTimers := 0 }

/-- The C9 state: both expected transfer sizes configured to zero, nothing
transferred, status running. -/
def zeroExpectedInitState : TestState :=
  TestState.mk
    (TransferStats.mk (TransferCount.mk 0 0) (TransferCount.mk 0 0))
    (TestStatus.mk false false)

/-- The C9 sender globals: a ready datagram sender with both expected sizes
zero. -/
def zeroExpectedGlobals : Globals :=
  { udpScenarioInit with sTestState := zeroExpectedInitState }

/-- A state in which every endpoint handle is live, used to exercise
teardown. -/
def cleanupAllGlobals : Globals :=
  { tcpSenderConnecting with
    sRawIPEndPoint := true
    sTCPIPListenEndPoint := true
    sUDPIPEndPoint := true }

/-! ## The evaluation rule as the specification words it -/

/-- The evaluation rule exactly as the specification states it (spec section
4.1), written independently of the source translation so the two can be
compared: `Failed` on overshoot of either configured counter, else
`Succeeded` when every counter with a positive expected count has reached it
exactly, else `Running`. -/
def specEvalRule (st : TransferStats) : Status :=
  if (0 < st.mTransmit.mExpected ∧ st.mTransmit.mExpected < st.mTransmit.mActual) ∨
     (0 < st.mReceive.mExpected ∧ st.mReceive.mExpected < st.mReceive.mActual) then
    Status.Failed
  else if (0 < st.mTransmit.mExpected → st.mTransmit.mActual = st.mTransmit.mExpected) ∧
          (0 < st.mReceive.mExpected → st.mReceive.mActual = st.mReceive.mExpected) then
    Status.Succeeded
  else
    Status.Running

section Lemmas

open TrackerOp

/-- The verdict reported by `CheckSucceededOrFailed` through its out-flags,
called the way the main loop calls it, matches the specification's rule for
every stats value. -/
lemma verdict_eq_specRule (s : TestState) :
    verdictOf (CheckSucceededOrFailed s true false) = specEvalRule s.mStats := by
  rcases s with ⟨⟨⟨txa, txe⟩, ⟨rxa, rxe⟩⟩, st⟩
  simp only [CheckSucceededOrFailed, verdictOf, specEvalRule,
    ← Bool.decide_and, ← Bool.decide_or]
  by_cases hO : (0 < txe ∧ txe < txa) ∨ (0 < rxe ∧ rxe < rxa)
  · simp [hO]
  · by_cases hU : (0 < txe ∧ txa < txe) ∨ (0 < rxe ∧ rxa < rxe)
    · have hM : ¬ ((0 < txe → txa = txe) ∧ (0 < rxe → rxa = rxe)) := by omega
      simp [hO, hU, hM]
    · have hM : (0 < txe → txa = txe) ∧ (0 < rxe → rxa = rxe) := by omega
      simp [hO, hU]
      rw [if_pos hM]

/-- Starting from a `Running` status (both flags clear), the stored status
after one main-loop evaluation matches the specification's rule. -/
lemma statusOf_evaluateOnce (s : TestState) (h : s.mStatus = TestStatus.mk false false) :
    statusOf (evaluateOnce s).mStatus = specEvalRule s.mStats := by
  rcases s with ⟨⟨⟨txa, txe⟩, ⟨rxa, rxe⟩⟩, st⟩
  cases h
  simp only [evaluateOnce, CheckSucceededOrFailed, statusOf, specEvalRule,
    Common.SetStatusFailed, ← Bool.decide_and, ← Bool.decide_or]
  by_cases hO : (0 < txe ∧ txe < txa) ∨ (0 < rxe ∧ rxe < rxa)
  · simp [hO]
  · have hO2 : ¬ (¬ txe = 0 ∧ txe < txa ∨ ¬ rxe = 0 ∧ rxe < rxa) := by omega
    by_cases hU : (0 < txe ∧ txa < txe) ∨ (0 < rxe ∧ rxa < rxe)
    · have hM : ¬ ((0 < txe → txa = txe) ∧ (0 < rxe → rxa = rxe)) := by omega
      simp [hO, hU, hM, hO2]
    · have hM : (0 < txe → txa = txe) ∧ (0 < rxe → rxa = rxe) := by omega
      simp [hO, hU, hO2]
      rw [if_pos hM]

/-- Facts preserved by one tracker operation: both actual counters are
non-decreasing, both expected counters are unchanged, and neither status flag
is ever cleared. -/
lemma trackerStep_facts (s : TestState) (op : TrackerOp) (hwf : statsWF s.mStats) :
    s.mStats.mTransmit.mActual ≤ (trackerStep s op).mStats.mTransmit.mActual ∧
    s.mStats.mReceive.mActual ≤ (trackerStep s op).mStats.mReceive.mActual ∧
    (trackerStep s op).mStats.mTransmit.mExpected = s.mStats.mTransmit.mExpected ∧
    (trackerStep s op).mStats.mReceive.mExpected = s.mStats.mReceive.mExpected ∧
    (s.mStatus.mFailed = true → (trackerStep s op).mStatus.mFailed = true) ∧
    (s.mStatus.mSucceeded = true → (trackerStep s op).mStatus.mSucceeded = true) := by
  unfold statsWF at hwf
  cases op <;>
    (try simp only [trackerStep, transmitStep, receiveStep, evaluateOnce,
      CheckSucceededOrFailed, Common.SetStatusFailed]) <;>
    (try split_ifs) <;>
    (try simp_all [U32]) <;>
    (try omega)

/-- `trackerStep_facts` folded over a whole operation sequence. -/
lemma trackerRun_facts (ops : List TrackerOp) :
    ∀ s : TestState, statsWF s.mStats →
      s.mStats.mTransmit.mActual ≤ (trackerRun s ops).mStats.mTransmit.mActual ∧
      s.mStats.mReceive.mActual ≤ (trackerRun s ops).mStats.mReceive.mActual ∧
      (s.mStatus.mFailed = true → (trackerRun s ops).mStatus.mFailed = true) ∧
      (s.mStatus.mSucceeded = true → (trackerRun s ops).mStatus.mSucceeded = true) := by
  induction ops with
  | nil =>
      intro s _
      exact ⟨le_refl _, le_refl _, fun hh => hh, fun hh => hh⟩
  | cons op rest ih =>
      intro s hwf
      have h1 := trackerStep_facts s op hwf
      have hwf1 : statsWF (trackerStep s op).mStats := by
        unfold statsWF at hwf ⊢
        rw [h1.2.2.1]
        exact hwf
      have h2 := ih (trackerStep s op) hwf1
      have hfold : trackerRun s (op :: rest) = trackerRun (trackerStep s op) rest := rfl
      rw [hfold]
      exact ⟨le_trans h1.1 h2.1, le_trans h1.2.1 h2.2.1,
        fun hf => h2.2.2.1 (h1.2.2.2.2.1 hf),
        fun hs => h2.2.2.2 (h1.2.2.2.2.2 hs)⟩

/-- Reading the tri-state view back onto the flags. -/
lemma statusOf_failed_iff (st : TestStatus) :
    statusOf st = Status.Failed ↔ st.mFailed = true := by
  unfold statusOf
  split_ifs <;> simp_all

/-- A status is non-`Running` exactly when some flag is set. -/
lemma statusOf_running_iff (st : TestStatus) :
    statusOf st = Status.Running ↔ (st.mFailed = false ∧ st.mSucceeded = false) := by
  unfold statusOf
  split_ifs <;> simp_all

/-- Once the main loop's status is terminal, further iterations leave the
state untouched, whatever the fuel. -/
lemma mainLoop_stopped (n : Nat) (s : TestState)
    (h : Common.IsTesting s.mStatus = false) :
    mainLoop n s = s := by
  cases n <;> simp [mainLoop, h]

/-- As long as the global TCP handle is non-null, one `DriveSend` neither
changes it nor emits a connect: the only connect site is
`PrepareTransportForSend` on a null handle. -/
lemma DriveSend_no_reconnect (g : Globals) (h : g.sTCPIPEndPoint.isSome = true) :
    (DriveSend g).1.sTCPIPEndPoint = g.sTCPIPEndPoint ∧
    Action.tcpConnect ∉ (DriveSend g).2 := by
  unfold DriveSend
  split_ifs with h1 h2 h3
  · exact ⟨rfl, by simp⟩
  · exact ⟨rfl, by simp⟩
  · unfold PrepareTransportForSend
    cases hm : g.sTCPIPEndPoint with
    | none => rw [hm] at h; simp at h
    | some ep =>
        simp only [hm]
        split_ifs <;> exact ⟨hm, by simp⟩
  · dsimp only
    split_ifs with h4
    · refine ⟨rfl, ?_⟩
      simp only [DriveSendForDestination]
      split_ifs <;> simp
    · exact ⟨rfl, by simp⟩

/-- `DriveSend_no_reconnect` extended over any number of pacing-timer
expiries. -/
lemma runTimerTicks_no_reconnect (n : Nat) :
    ∀ g : Globals, g.sTCPIPEndPoint.isSome = true →
      (runTimerTicks n g).1.sTCPIPEndPoint = g.sTCPIPEndPoint ∧
      Action.tcpConnect ∉ (runTimerTicks n g).2 := by
  induction n with
  | zero =>
      intro g h
      exact ⟨rfl, by simp [runTimerTicks]⟩
  | succ n ih =>
      intro g h
      have hstep := DriveSend_no_reconnect
        { g with gSendIntervalExpired := true,
                 pendingSendTimers := g.pendingSendTimers - 1 } h
      have hsome : (HandleSendTimerComplete g).1.sTCPIPEndPoint.isSome = true := by
        unfold HandleSendTimerComplete
        rw [hstep.1]
        exact h
      have hrest := ih (HandleSendTimerComplete g).1 hsome
      constructor
      · show (runTimerTicks n (HandleSendTimerComplete g).1).1.sTCPIPEndPoint = _
        rw [hrest.1]
        unfold HandleSendTimerComplete
        exact hstep.1
      · show Action.tcpConnect ∉ (HandleSendTimerComplete g).2 ++
          (runTimerTicks n (HandleSendTimerComplete g).1).2
        rw [List.mem_append]
        rintro (hc | hc)
        · exact hstep.2 hc
        · exact hrest.2 hc

end Lemmas

/-! ## Claim theorems -/

/-- C1: for every tracker state, the evaluation performed after a mutation
reports `Failed` exactly on an overshoot of a configured counter, `Succeeded`
exactly when every counter with a positive expected count equals it, and
`Running` otherwise; from a `Running` state the stored status agrees; and in
particular, with `receive.expected = 50`, a single `recordReceived(60)`
followed by the evaluation makes the stored status `Failed`. -/
theorem claim_C1 (s : TestState) :
    verdictOf (CheckSucceededOrFailed s true false) = specEvalRule s.mStats ∧
    (s.mStatus = TestStatus.mk false false →
      statusOf (evaluateOnce s).mStatus = specEvalRule s.mStats) ∧
    statusOf (evaluateOnce (trackerStep
      (TestState.mk
        (TransferStats.mk (TransferCount.mk 0 0) (TransferCount.mk 0 50))
        (TestStatus.mk false false))
      (TrackerOp.received 60))).mStatus = Status.Failed :=
  ⟨verdict_eq_specRule s, fun h => statusOf_evaluateOnce s h, by decide⟩

/-- Witness for C1: at a tracker state with both counters met the hypothesis
of the stored-status part is discharged and the evaluation reports
`Succeeded`. -/
theorem claim_C1_witness :
    statusOf (evaluateOnce (TestState.mk
      (TransferStats.mk (TransferCount.mk 100 100) (TransferCount.mk 0 0))
      (TestStatus.mk false false))).mStatus =
    specEvalRule (TransferStats.mk (TransferCount.mk 100 100) (TransferCount.mk 0 0)) :=
  (claim_C1 (TestState.mk
    (TransferStats.mk (TransferCount.mk 100 100) (TransferCount.mk 0 0))
    (TestStatus.mk false false))).2.1 rfl

/-- C2: over every sequence of tracker operations (pacing-tick transmits,
verified receives, forced failures, evaluations) both actual counters are
non-decreasing, a `Failed` status stays `Failed` (so no later evaluation
reports `Succeeded`), and a terminal status never reverts to `Running`. The
hypothesis is the `uint32_t` bound on the configured expected transmit size. -/
theorem claim_C2 (s : TestState) (ops : List TrackerOp) (hwf : statsWF s.mStats) :
    s.mStats.mTransmit.mActual ≤ (trackerRun s ops).mStats.mTransmit.mActual ∧
    s.mStats.mReceive.mActual ≤ (trackerRun s ops).mStats.mReceive.mActual ∧
    (statusOf s.mStatus = Status.Failed →
      statusOf (trackerRun s ops).mStatus = Status.Failed) ∧
    (statusOf s.mStatus ≠ Status.Running →
      statusOf (trackerRun s ops).mStatus ≠ Status.Running) := by
  have h := trackerRun_facts ops s hwf
  refine ⟨h.1, h.2.1, ?_, ?_⟩
  · intro hf
    exact (statusOf_failed_iff _).2 (h.2.2.1 ((statusOf_failed_iff _).1 hf))
  · intro hnr hr
    have hflags := (statusOf_running_iff _).1 hr
    rcases Bool.eq_false_or_eq_true s.mStatus.mFailed with hf | hf
    · exact absurd (h.2.2.1 hf) (by simp [hflags.1])
    · rcases Bool.eq_false_or_eq_true s.mStatus.mSucceeded with hs | hs
      · exact absurd (h.2.2.2 hs) (by simp [hflags.2])
      · exact hnr ((statusOf_running_iff _).2 ⟨hf, hs⟩)

/-- Witness for C2: a concrete failed tracker subjected to a transmit tick,
a receive and an evaluation stays `Failed` and keeps its counters. -/
theorem claim_C2_witness :
    statusOf (trackerRun
      (TestState.mk
        (TransferStats.mk (TransferCount.mk 3 10) (TransferCount.mk 0 0))
        (TestStatus.mk false true))
      [TrackerOp.transmitTick 4, TrackerOp.received 5, TrackerOp.evaluate]).mStatus =
      Status.Failed :=
  (claim_C2
    (TestState.mk
      (TransferStats.mk (TransferCount.mk 3 10) (TransferCount.mk 0 0))
      (TestStatus.mk false true))
    [TrackerOp.transmitTick 4, TrackerOp.received 5, TrackerOp.evaluate]
    (by norm_num [statsWF, U32])).2.2.1 (by decide)

/-- Counterexample to C3: with `expected-tx-size = 10` and `send-size = 4`
the three datagrams carry pattern bytes `0..3`, `0..3`, `0,1` — the UDP
sender patterns every datagram from `lFirstValue = 0` — and not
`0..3`, `4..7`, `8,9` as the claim states. -/
theorem claim_C3_counterexample :
    datagramPayloads (udpRun 2).2 = [[0, 1, 2, 3], [0, 1, 2, 3], [0, 1]] ∧
    datagramPayloads (udpRun 2).2 ≠ [[0, 1, 2, 3], [4, 5, 6, 7], [8, 9]] := by
  constructor
  · rfl
  · decide

/-- C3 as amended: the datagram sender with `expected-tx-size = 10` and
`send-size = 4` performs exactly three sending pacing ticks with chunk sizes
4, 4 and 2 — each tick sending `min(expected.transmit - actual.transmit,
send-size)` bytes — after which the transmit counter has reached 10, a
further tick sends nothing, and the next evaluation reports `Succeeded`
(terminating the session); every chunk is an independent pattern starting at
offset 0, so the payloads are bytes `0..3`, `0..3` and `0,1`. -/
theorem claim_C3 :
    datagramPayloads (udpRun 2).2 =
      [MakeDataBuffer 4 0, MakeDataBuffer 4 0, MakeDataBuffer 2 0] ∧
    (datagramPayloads (udpRun 2).2).map List.length = [4, 4, 2] ∧
    (udpRun 2).1.sTestState.mStats.mTransmit.mActual = 10 ∧
    datagramPayloads (udpRun 3).2 = datagramPayloads (udpRun 2).2 ∧
    statusOf (evaluateOnce (udpRun 2).1.sTestState).mStatus = Status.Succeeded := by
  refine ⟨rfl, rfl, rfl, rfl, ?_⟩
  decide

/-- C4: the stream sender patterns every chunk from
`transmit.actual mod 256`; the stream receiver verifies every delivery
against the pattern starting at `receive.actual mod 256`; so the continuous
8-byte stream `0..7` delivered as 3 bytes then 5 bytes verifies (offsets 0
and 3), while verifying the second delivery against pattern start 0 fails. -/
theorem claim_C4 :
    (∀ (g : Globals) (aSize : Nat),
      g.gOptFlags.useRawIP = false → g.gOptFlags.useUDPIP = false →
      g.gOptFlags.useTCPIP = true →
      DriveSendForDestination g aSize =
        [Action.tcpSend
          (MakeDataBuffer aSize (g.sTestState.mStats.mTransmit.mActual % 256))]) ∧
    (∀ (s : TestState) (buf : List Nat),
      HandleTCPDataReceived s (some tcpConnectedEndPoint) (some buf) =
        if Common.verify buf (s.mStats.mReceive.mActual % 256) then
          { s with mStats := receiveStep s.mStats buf.length }
        else
          { s with mStatus := Common.SetStatusFailed s.mStatus }) ∧
    [0, 1, 2] ++ [3, 4, 5, 6, 7] = MakeDataBuffer 8 0 ∧
    (HandleTCPDataReceived streamRxState (some tcpConnectedEndPoint)
      (some [0, 1, 2])).mStats.mReceive.mActual = 3 ∧
    (HandleTCPDataReceived streamRxState (some tcpConnectedEndPoint)
      (some [0, 1, 2])).mStatus.mFailed = false ∧
    (HandleTCPDataReceived
      (HandleTCPDataReceived streamRxState (some tcpConnectedEndPoint) (some [0, 1, 2]))
      (some tcpConnectedEndPoint) (some [3, 4, 5, 6, 7])).mStats.mReceive.mActual = 8 ∧
    (HandleTCPDataReceived
      (HandleTCPDataReceived streamRxState (some tcpConnectedEndPoint) (some [0, 1, 2]))
      (some tcpConnectedEndPoint) (some [3, 4, 5, 6, 7])).mStatus.mFailed = false ∧
    Common.verify [3, 4, 5, 6, 7] 3 = true ∧
    Common.verify [3, 4, 5, 6, 7] 0 = false ∧
    (HandleTCPDataReceived streamRxState (some tcpConnectedEndPoint)
      (some [3, 4, 5, 6, 7])).mStatus.mFailed = true := by
  refine ⟨?_, ?_, by decide, by decide, by decide, by decide, by decide,
    by decide, by decide, by decide⟩
  · intro g aSize h1 h2 h3
    simp [DriveSendForDestination, h1, h2, h3]
  · intro s buf
    by_cases hv : Common.verify buf (s.mStats.mReceive.mActual % 256) = true
    · simp [HandleTCPDataReceived, Common.HandleDataReceived, tcpConnectedEndPoint, hv]
    · rw [Bool.not_eq_true] at hv
      simp [HandleTCPDataReceived, Common.HandleDataReceived, tcpConnectedEndPoint, hv]

/-- Witness for C4: the sender-side conjunct applied to the concrete stream
sender, its transport-flag hypotheses discharged by computation. -/
theorem claim_C4_witness :
    DriveSendForDestination tcpSenderConnecting 4 =
      [Action.tcpSend
        (MakeDataBuffer 4 (tcpSenderConnecting.sTestState.mStats.mTransmit.mActual % 256))] :=
  claim_C4.1 tcpSenderConnecting 4 rfl rfl rfl

/-- Counterexample to C5: on a connect failure the handler does force the
status to `Failed` — `HandleTCPConnectionComplete`'s error branch ends in
`SetStatusFailed` (TestInetLayer.cpp line 568) — even though the status was
not failed beforehand. -/
theorem claim_C5_counterexample :
    tcpSenderConnecting.sTestState.mStatus.mFailed = false ∧
    statusOf (HandleTCPConnectionComplete tcpSenderConnecting
      (some 1)).1.sTestState.mStatus = Status.Failed := by
  decide

/-- C5 as amended: on a Stream-sender connect failure the endpoint object is
freed, the pacing timer is cancelled and re-armed for a retry, the
interval-expired flag is cleared, and the test status IS forced to `Failed`
at that point; on connect success the pacing controller is invoked once
immediately. -/
theorem claim_C5 (g : Globals) (e : Nat) :
    (HandleTCPConnectionComplete g (some e)).2 =
      [Action.freeTCPEndPoint, Action.cancelTimer, Action.startTimer] ∧
    (HandleTCPConnectionComplete g (some e)).1.pendingSendTimers = 1 ∧
    (HandleTCPConnectionComplete g (some e)).1.gSendIntervalExpired = false ∧
    (HandleTCPConnectionComplete g (some e)).1.sTestState.mStatus.mFailed = true ∧
    HandleTCPConnectionComplete g none = DriveSend g :=
  ⟨rfl, rfl, rfl, rfl, rfl⟩

/-- C6: a sending pacing tick leaves exactly one pending one-shot timer —
the arm is preceded by a cancel of anything pending — and it clears the
interval-expired flag, so a second `drive()` inside the same interval is a
complete no-op: no duplicate ticks can accumulate. -/
theorem claim_C6 (g : Globals)
    (hs : Common.IsSender g.gOptFlags = true)
    (he : g.gSendIntervalExpired = true)
    (hr : IsTransportReadyForSend g = true) :
    (DriveSend g).1.pendingSendTimers = CancelTimer g.pendingSendTimers + 1 ∧
    (DriveSend g).1.pendingSendTimers = 1 ∧
    (DriveSend g).1.gSendIntervalExpired = false ∧
    DriveSend (DriveSend g).1 = ((DriveSend g).1, []) := by
  have hg : DriveSend g =
      (if !(Common.IsSender g.gOptFlags) then (g, [])
       else if !g.gSendIntervalExpired then (g, [])
       else if !(IsTransportReadyForSend g) then PrepareTransportForSend g
       else
        let g1 := { g with
          gSendIntervalExpired := false,
          pendingSendTimers := StartTimer g.pendingSendTimers }
        if g1.sTestState.mStats.mTransmit.mActual <
            g1.sTestState.mStats.mTransmit.mExpected then
          let lRemaining := g1.sTestState.mStats.mTransmit.mExpected -
            g1.sTestState.mStats.mTransmit.mActual
          let lSendSize := min lRemaining g1.gSendSize
          let lActs := DriveSendForDestination g1 lSendSize
          let g2 := { g1 with sTestState :=
            { g1.sTestState with mStats := transmitStep g1.sTestState.mStats g1.gSendSize } }
          (g2, Action.startTimer :: lActs)
        else
          (g1, [Action.startTimer])) := rfl
  rw [hg]
  simp only [hs, he, hr, Bool.not_true, Bool.false_eq_true, if_false]
  try dsimp only
  split_ifs with h4
  · exact ⟨rfl, rfl, rfl, by simp [DriveSend, hs]⟩
  · exact ⟨rfl, rfl, rfl, by simp [DriveSend, hs]⟩

/-- Witness for C6: the ready datagram sender of the C3 scenario. -/
theorem claim_C6_witness :
    (DriveSend udpScenarioInit).1.pendingSendTimers = 1 ∧
    DriveSend (DriveSend udpScenarioInit).1 = ((DriveSend udpScenarioInit).1, []) :=
  ⟨(claim_C6 udpScenarioInit rfl rfl rfl).2.1,
   (claim_C6 udpScenarioInit rfl rfl rfl).2.2.2⟩

/-- C7: for every ordering of two distinct transport flags among `--raw`,
`--tcp` and `--udp`, argument parsing reports the conflict and `main` exits
with `EXIT_FAILURE` before `StartTest` — the only place endpoints are
created — is ever reached. -/
theorem claim_C7 (f1 f2 : ToolOpt) (sessionExitCode : Nat)
    (h1 : f1 ∈ [ToolOpt.optRawIP, ToolOpt.optTCPIP, ToolOpt.optUDPIP])
    (h2 : f2 ∈ [ToolOpt.optRawIP, ToolOpt.optTCPIP, ToolOpt.optUDPIP])
    (hne : f1 ≠ f2) :
    (ParseArgs initialParseState [f1, f2]).1 = false ∧
    mainRun sessionExitCode [f1, f2] = (EXIT_FAILURE, false) := by
  fin_cases h1 <;> fin_cases h2 <;>
    first
      | exact absurd rfl hne
      | exact ⟨rfl, rfl⟩

/-- Witness for C7: `--raw` followed by `--tcp` is rejected and the process
exits with failure without reaching `StartTest`. -/
theorem claim_C7_witness :
    (ParseArgs initialParseState [ToolOpt.optRawIP, ToolOpt.optTCPIP]).1 = false ∧
    mainRun 0 [ToolOpt.optRawIP, ToolOpt.optTCPIP] = (EXIT_FAILURE, false) :=
  claim_C7 ToolOpt.optRawIP ToolOpt.optTCPIP 0 (by decide) (by decide) (by decide)

/-- Counterexample to C8's idempotence: `CleanupTest` never nulls the global
endpoint handles, so a second invocation with no intervening operations
re-issues the very same `Close`/`Shutdown`/`Free` calls on the
already-released endpoints — it is not free of additional effect. -/
theorem claim_C8_counterexample :
    (CleanupTest (CleanupTest cleanupAllGlobals).1).2 =
      (CleanupTest cleanupAllGlobals).2 ∧
    Action.freeRawEndPoint ∈ (CleanupTest (CleanupTest cleanupAllGlobals).1).2 ∧
    (CleanupTest (CleanupTest cleanupAllGlobals).1).2 ≠ [Action.cancelTimer] := by
  decide

/-- C8 as amended: teardown cancels the pacing timer and releases the live
endpoints in the order raw, stream data endpoint (`Close` first), listening
endpoint (`Shutdown` first), datagram endpoint, skipping every null handle;
but it leaves all handles untouched, so running it a second time repeats the
same release calls instead of having no effect. -/
theorem claim_C8 (g : Globals) :
    (CleanupTest cleanupAllGlobals).2 =
      [Action.cancelTimer, Action.freeRawEndPoint,
       Action.closeTCPEndPoint, Action.freeTCPEndPoint,
       Action.shutdownListenEndPoint, Action.freeListenEndPoint,
       Action.freeUDPEndPoint] ∧
    (CleanupTest
      { g with
          sRawIPEndPoint := false
          sTCPIPEndPoint := none
          sTCPIPListenEndPoint := false
          sUDPIPEndPoint := false }).2 = [Action.cancelTimer] ∧
    (CleanupTest g).1.sRawIPEndPoint = g.sRawIPEndPoint ∧
    (CleanupTest g).1.sTCPIPEndPoint = g.sTCPIPEndPoint ∧
    (CleanupTest g).1.sTCPIPListenEndPoint = g.sTCPIPListenEndPoint ∧
    (CleanupTest g).1.sUDPIPEndPoint = g.sUDPIPEndPoint ∧
    (CleanupTest (CleanupTest g).1).2 = (CleanupTest g).2 :=
  ⟨by decide, by simp [CleanupTest], rfl, rfl, rfl, rfl, rfl⟩

/-- C9: with both expected sizes configured to zero the configuration parses,
the first main-loop evaluation marks the status `Succeeded`, every later
iteration leaves the state alone, the exit code is `EXIT_SUCCESS`, and not a
byte is transmitted (a pacing tick of the zero-expectation sender sends no
datagram and leaves the transmit counter at zero). -/
theorem claim_C9 (fuel : Nat) :
    (ParseArgs initialParseState
      [ToolOpt.optUDPIP, ToolOpt.optExpectedRxSize 0, ToolOpt.optExpectedTxSize 0]).1
      = true ∧
    ParseState.mReceiveExpected (ParseArgs initialParseState
      [ToolOpt.optUDPIP, ToolOpt.optExpectedRxSize 0, ToolOpt.optExpectedTxSize 0]).2
      = 0 ∧
    ParseState.mTransmitExpected (ParseArgs initialParseState
      [ToolOpt.optUDPIP, ToolOpt.optExpectedRxSize 0, ToolOpt.optExpectedTxSize 0]).2
      = 0 ∧
    statusOf (evaluateOnce zeroExpectedInitState).mStatus = Status.Succeeded ∧
    mainLoop (fuel + 1) zeroExpectedInitState = evaluateOnce zeroExpectedInitState ∧
    (mainLoop (fuel + 1) zeroExpectedInitState).mStats.mTransmit.mActual = 0 ∧
    (mainLoop (fuel + 1) zeroExpectedInitState).mStats.mReceive.mActual = 0 ∧
    mainExitCode (mainLoop (fuel + 1) zeroExpectedInitState) = EXIT_SUCCESS ∧
    datagramPayloads (DriveSend zeroExpectedGlobals).2 = [] ∧
    (DriveSend zeroExpectedGlobals).1.sTestState.mStats.mTransmit.mActual = 0 := by
  have h1 : mainLoop (fuel + 1) zeroExpectedInitState =
      evaluateOnce zeroExpectedInitState := by
    have hstep : mainLoop (fuel + 1) zeroExpectedInitState =
        mainLoop fuel (evaluateOnce zeroExpectedInitState) := by
      simp [mainLoop, zeroExpectedInitState, Common.IsTesting]
    rw [hstep]
    exact mainLoop_stopped fuel (evaluateOnce zeroExpectedInitState) (by decide)
  refine ⟨by decide, by decide, by decide, by decide, h1, ?_, ?_, ?_, by decide, by decide⟩
  · rw [h1]; decide
  · rw [h1]; decide
  · rw [h1]; decide

/-- C10: after a Stream connect failure the handler leaves the global
`sTCPIPEndPoint` exactly as it was (only its local parameter is nulled);
`PrepareTransportForSend` initiates a connection only on a null handle; so
however many pacing-timer retries fire afterwards, none of them ever emits
another connect — the rescheduled retry can never reconnect. -/
theorem claim_C10 (g : Globals) (e : Nat) (n : Nat)
    (hep : g.sTCPIPEndPoint.isSome = true) :
    (HandleTCPConnectionComplete g (some e)).1.sTCPIPEndPoint = g.sTCPIPEndPoint ∧
    (∀ g2 : Globals, g2.sTCPIPEndPoint.isSome = true →
      PrepareTransportForSend g2 = (g2, [])) ∧
    Action.tcpConnect ∉
      (runTimerTicks n (HandleTCPConnectionComplete g (some e)).1).2 ∧
    (runTimerTicks n (HandleTCPConnectionComplete g (some e)).1).1.sTCPIPEndPoint =
      g.sTCPIPEndPoint := by
  have hprep : ∀ g2 : Globals, g2.sTCPIPEndPoint.isSome = true →
      PrepareTransportForSend g2 = (g2, []) := by
    intro g2 h2
    unfold PrepareTransportForSend
    cases hm : g2.sTCPIPEndPoint with
    | none => rw [hm] at h2; simp at h2
    | some ep2 => simp only [hm]; split_ifs <;> rfl
  have hsame : (HandleTCPConnectionComplete g (some e)).1.sTCPIPEndPoint =
      g.sTCPIPEndPoint := rfl
  have hticks := runTimerTicks_no_reconnect n
    (HandleTCPConnectionComplete g (some e)).1 (by rw [hsame]; exact hep)
  exact ⟨hsame, hprep, hticks.2, by rw [hticks.1, hsame]⟩

/-- Witness for C10: the connecting stream sender whose connect fails, then
two pacing-timer retries — the handle is untouched and no connect is ever
issued. -/
theorem claim_C10_witness :
    (HandleTCPConnectionComplete tcpSenderConnecting (some 1)).1.sTCPIPEndPoint =
      tcpSenderConnecting.sTCPIPEndPoint ∧
    Action.tcpConnect ∉
      (runTimerTicks 2 (HandleTCPConnectionComplete tcpSenderConnecting (some 1)).1).2 :=
  ⟨(claim_C10 tcpSenderConnecting 1 2 rfl).1,
   (claim_C10 tcpSenderConnecting 1 2 rfl).2.2.1⟩

end TestInetLayer
